import Mathlib

/-!
Shallow embedding of github.com/codegangsta/controller (src/controller.go).

The package has two layers:
  * a registration-time shape validator, `controllerType`, that inspects a
    method reference with Go reflection; we model the fragment of Go's
    reflection type system it uses (`GoType`, kinds, method sets,
    `Implements`, `PtrTo`, pointer stripping);
  * a per-request lifecycle dispatcher, the closure built by `Action`,
    modelled further below as an instrumented straight-line program over an
    abstract controller behaviour, and additionally as an interleaved
    two-invocation machine exposing the closure's captured variables.
-/

namespace Controller

/-- Model of the fragment of Go's `reflect.Type` used by controller.go.
A method is identified by its name together with a rendered signature
string (Go compares full signatures when deciding interface satisfaction;
distinct signatures are modelled as distinct strings).
`base name vmethods pmethods` is a named non-pointer, non-function type
with its value-receiver and pointer-receiver method sets. -/
inductive GoType where
  | func (ins outs : List GoType)
  | ptr (elem : GoType)
  | base (name : String) (vmethods pmethods : List (String × String))
  | iface (name : String) (methods : List (String × String))

/-- Go method sets: a value type has its value-receiver methods, `*T` has
both receiver sets of `T`, an interface has its listed methods, and
pointer-to-pointer, function and pointer-to-interface types have none. -/
def methodSet : GoType → List (String × String)
  | .base _ v _ => v
  | .ptr (.base _ v p) => v ++ p
  | .iface _ ms => ms
  | _ => []

/-- reflect's `t.Implements(i)`: every method of the interface `i` occurs,
with the same signature, in the method set of `t`. -/
def Implements (t i : GoType) : Bool :=
  match i with
  | .iface _ ms => ms.all (fun m => (methodSet t).contains m)
  | _ => false

/-- reflect's `t.Kind() == reflect.Func`. -/
def kindIsFunc : GoType → Bool
  | .func _ _ => true
  | _ => false

/-- reflect's `t.NumIn()` (0 for non-function types; the code only reads it
after the kind check). -/
def numIn : GoType → Nat
  | .func ins _ => ins.length
  | _ => 0

/-- reflect's `t.NumOut()`. -/
def numOut : GoType → Nat
  | .func _ outs => outs.length
  | _ => 0

/-- reflect's `t.In(0)` (guarded by `NumIn() == 1` in the code). -/
def inAt0 : GoType → GoType
  | .func (a :: _) _ => a
  | t => t

/-- reflect's `t.Out(0)` (guarded by `NumOut() == 1` in the code). -/
def outAt0 : GoType → GoType
  | .func _ (a :: _) => a
  | t => t

/-- The loop `for t.Kind() == reflect.Ptr { t = t.Elem() }` from
`controllerType` and `interfaceOf`: strips every level of indirection. -/
def stripAllPtr : GoType → GoType
  | .ptr t => stripAllPtr t
  | t => t

/-- controller.go's `interfaceOf`: take the type of the value and strip
pointers (the call sites pass `(*error)(nil)` and `(*Controller)(nil)`). -/
def interfaceOf (t : GoType) : GoType :=
  stripAllPtr t

/-- Go's built-in `error` interface: one method `Error() string`. -/
def errorType : GoType :=
  .iface "error" [("Error", "func() string")]

/-- The package's `Controller` interface: `Init(http.ResponseWriter,
*http.Request) error`, `Destroy()`, `Error(int, string)`. -/
def ControllerIface : GoType :=
  .iface "Controller"
    [("Init", "func(http.ResponseWriter, *http.Request) error"),
     ("Destroy", "func()"),
     ("Error", "func(int, string)")]

/-- controller.go's `controllerType` (lines 125-155): the registration-time
shape validator. Checks run in source order and the first failure's error
is returned; on success the pointee (concrete) type is returned. -/
def controllerType (t : GoType) : Except String GoType :=
  if ¬ kindIsFunc t then
    .error "Action is not a function"
  else if numIn t ≠ 1 then
    .error "Wrong Number of Arguments in action"
  else if numOut t ≠ 1 then
    .error "Wrong Number of return values in action"
  else if ¬ Implements (outAt0 t) (interfaceOf (.ptr errorType)) then
    .error "Action return type invalid"
  else
    let c := stripAllPtr (inAt0 t)
    if ¬ Implements (.ptr c) (interfaceOf (.ptr ControllerIface)) then
      .error "Controller does not implement ctrl.Controller interface"
    else
      .ok c

/-- Modelled from the spec: the Shape Validator's fifth check as §4.1
states it, stripping "any single level of indirection" from the input
parameter (one pointer-dereference step) before asking whether the pointer
form satisfies the contract. Used only to compare against the source's
`controllerType`, which strips pointers in a loop. -/
def stripOnePtr : GoType → GoType
  | .ptr t => t
  | t => t

/-- The handler value `Action` returns on success: a closure capturing the
method reference's type and the validated concrete controller type. -/
structure BoundHandler where
  refType : GoType
  concrete : GoType

/-- controller.go's `Action` (lines 101-123) at registration time: run the
validator, panic (modelled as `Except.error`) with its error if it fails,
otherwise return the handler closure capturing the concrete type. -/
def Action (t : GoType) : Except String BoundHandler :=
  match controllerType t with
  | .error e => .error e
  | .ok c => .ok ⟨t, c⟩

/-- reflect's requirement on `val.Call([]reflect.Value{v})` inside the
handler: the call succeeds (does not panic) iff the value passed — the
`*concrete` produced by `reflect.New(concrete)` — has exactly the method
reference's parameter type. -/
def callCompatible (h : BoundHandler) : Prop :=
  inAt0 h.refType = .ptr h.concrete

/-! Concrete types from the repository's test file (src/unnamed/part_002):
`TestController` embeds `Base`, so `*TestController` has the three promoted
pointer-receiver lifecycle methods; `NoController` has only `Foo`. -/

/-- The `TestController` struct: no value-receiver methods; the pointer
method set carries the promoted `Base` lifecycle methods plus its own
actions. -/
def TestControllerType : GoType :=
  .base "TestController" []
    [("Init", "func(http.ResponseWriter, *http.Request) error"),
     ("Destroy", "func()"),
     ("Error", "func(int, string)"),
     ("Index", "func() error"),
     ("BadAction", "func()"),
     ("BadAction2", "func() string")]

/-- The `NoController` struct: does not satisfy the Controller interface. -/
def NoControllerType : GoType :=
  .base "NoController" [] [("Foo", "func()")]

/-- Go's `string` type (no methods). -/
def stringType : GoType :=
  .base "string" [] []

/-- Type of the method expression `(*TestController).Index`. -/
def IndexRef : GoType :=
  .func [.ptr TestControllerType] [errorType]

/-- Type of `(*TestController).BadAction` (returns nothing). -/
def BadActionRef : GoType :=
  .func [.ptr TestControllerType] []

/-- Type of `(*TestController).BadAction2` (returns a string). -/
def BadAction2Ref : GoType :=
  .func [.ptr TestControllerType] [stringType]

/-- Type of `(*NoController).Foo`. -/
def FooRef : GoType :=
  .func [.ptr NoControllerType] []

/-- A function whose parameter is a double pointer to `TestController`. -/
def DoublePtrRef : GoType :=
  .func [.ptr (.ptr TestControllerType)] [errorType]

/-! Per-request lifecycle (the closure of lines 108-122).

The handler body is straight-line Go over an instance of the registered
concrete type, seen through the `Controller` interface. We model the
instance's dynamic behaviour as an abstract state type `σ` with the three
lifecycle methods plus the bound action method, every call being recorded
in an event trace. `http.StatusInternalServerError` is the literal 500. -/

/-- A non-nil Go `error` value: `Error()` returns its message. -/
structure GoError where
  msg : String
deriving DecidableEq

/-- Opaque handle for an `*http.Request`. -/
structure Request where
  id : Nat
deriving DecidableEq

/-- Opaque handle for an `http.ResponseWriter`. -/
structure ResponseWriter where
  id : Nat
deriving DecidableEq

/-- Dynamic behaviour of the registered concrete controller type: the zero
value `reflect.New` produces, the three `Controller` lifecycle methods and
the bound action method, each as a state transformer (`Init` and the
method also return an optional error). -/
structure ControllerBehavior (σ : Type) where
  zeroVal : σ
  Init : σ → ResponseWriter → Request → σ × Option GoError
  Destroy : σ → σ
  Error : σ → Nat → String → σ
  method : σ → σ × Option GoError

/-- One observable call made by the handler during an invocation. -/
inductive Event where
  | newInstance
  | initCalled (res : Option GoError)
  | methodCalled (res : Option GoError)
  | errorCalled (code : Nat) (msg : String)
  | destroyCalled
deriving DecidableEq

/-- The handler body after `v := reflect.New(t)`, started on instance
state `v`, for an UNINTERFERED invocation: run `Init`, then either report
its error, or call the bound method and report that error if non-nil; the
deferred `Destroy` runs on every exit path, last. Returns the final
instance state and the trace of calls in execution order.

Caveat: line 113 of the source reads the captured `err` variable, which
line 111 of any concurrent invocation of the same handler may have
overwritten; this function branches on this invocation's own `Init`
result, which coincides with that read exactly when no other invocation
interleaves between lines 111 and 114. The interleaved machine further
below drops that assumption and models the shared `err` explicitly;
properties quantified over every invocation of a handler that may serve
concurrent requests must be read off that machine, not this function. -/
def runLifecycle {σ : Type} (B : ControllerBehavior σ) (v : σ)
    (rw : ResponseWriter) (r : Request) : σ × List Event :=
  let s1 := B.Init v rw r
  match s1.2 with
  | some e =>
      let c2 := B.Error s1.1 500 e.msg
      (B.Destroy c2,
       [.newInstance, .initCalled (some e), .errorCalled 500 e.msg,
        .destroyCalled])
  | none =>
      let s2 := B.method s1.1
      match s2.2 with
      | some e =>
          let c3 := B.Error s2.1 500 e.msg
          (B.Destroy c3,
           [.newInstance, .initCalled none, .methodCalled (some e),
            .errorCalled 500 e.msg, .destroyCalled])
      | none =>
          (B.Destroy s2.1,
           [.newInstance, .initCalled none, .methodCalled none,
            .destroyCalled])

/-- One invocation of the Bound Handler (the `http.HandlerFunc` closure):
`reflect.New(t)` yields a fresh zero-valued instance, on which the
lifecycle runs. -/
def serveHTTP {σ : Type} (B : ControllerBehavior σ)
    (rw : ResponseWriter) (r : Request) : σ × List Event :=
  runLifecycle B B.zeroVal rw r

/-- Recogniser for error-report events, for counting `Error` calls. -/
def Event.isErrorCall : Event → Bool
  | .errorCalled _ _ => true
  | _ => false

/-- Recogniser for bound-method invocation events. -/
def Event.isMethodCall : Event → Bool
  | .methodCalled _ => true
  | _ => false

/-- Recogniser for `Destroy` calls. -/
def Event.isDestroyCall : Event → Bool
  | .destroyCalled => true
  | _ => false

/-- Recogniser for instance allocations. -/
def Event.isAlloc : Event → Bool
  | .newInstance => true
  | _ => false

/-- The `Base` struct (lines 60-63): request and response-writer fields,
both nil (`none`) in the zero value. -/
structure Base where
  Request : Option Request
  ResponseWriter : Option ResponseWriter
deriving DecidableEq

/-- `Base.Init` (lines 68-71): `b.Request, b.ResponseWriter = r, rw` then
`return nil`. -/
def BaseInit (b : Base) (rw : ResponseWriter) (r : Request) :
    Base × Option GoError :=
  ({ b with Request := some r, ResponseWriter := some rw }, none)

/-! Two concurrent invocations of one Bound Handler.

In `Action`, `t, err := controllerType(val)` declares `err` in the
enclosing scope, and the closure's line 111 reads `err = c.Init(rw, r)` —
plain assignment, not a new declaration — so every invocation of the same
handler writes and then reads the one captured `err` variable. The machine
below makes that variable explicit: each invocation is a small-step thread
over its own instance and locals, and `err` is the only shared cell. Each
step is one line of the closure. -/

/-- Program counter of one in-flight invocation: the lines of the closure
(lines 111-121), with the deferred `Destroy` as the final step of every
path. -/
inductive PC where
  | doInit
  | checkErr
  | doMethod
  | checkRet
  | doDestroy
  | done
deriving DecidableEq

/-- One in-flight invocation: its position in the closure body, its own
controller instance `inst` (the `v` of `reflect.New`), its request pair,
the local `ret` (declared with `:=` on line 117, so per-invocation), and
the calls it has made. -/
structure Invocation (σ : Type) where
  pc : PC
  inst : σ
  rw : ResponseWriter
  req : Request
  ret : Option GoError
  trace : List Event

/-- The state of two concurrent invocations `a` and `b` of one handler:
`err` is the single captured variable both share. -/
structure RaceState (σ : Type) where
  err : Option GoError
  a : Invocation σ
  b : Invocation σ

/-- Thread identifier. -/
inductive Tid where
  | a
  | b
deriving DecidableEq

/-- One step of one invocation, given the current value of the shared
`err`: `doInit` runs `Init` and writes its result to `err`; `checkErr`
reads `err` back (line 113) — under interleaving, possibly another
invocation's value; the remaining lines touch only invocation-local
state. -/
def stepInv {σ : Type} (B : ControllerBehavior σ) (err : Option GoError)
    (iv : Invocation σ) : Invocation σ × Option GoError :=
  match iv.pc with
  | .doInit =>
      let s := B.Init iv.inst iv.rw iv.req
      ({ iv with pc := .checkErr, inst := s.1,
                 trace := iv.trace ++ [.initCalled s.2] }, s.2)
  | .checkErr =>
      match err with
      | some e =>
          ({ iv with pc := .doDestroy, inst := B.Error iv.inst 500 e.msg,
                     trace := iv.trace ++ [.errorCalled 500 e.msg] }, err)
      | none => ({ iv with pc := .doMethod }, err)
  | .doMethod =>
      let s := B.method iv.inst
      ({ iv with pc := .checkRet, inst := s.1, ret := s.2,
                 trace := iv.trace ++ [.methodCalled s.2] }, err)
  | .checkRet =>
      match iv.ret with
      | some e =>
          ({ iv with pc := .doDestroy, inst := B.Error iv.inst 500 e.msg,
                     trace := iv.trace ++ [.errorCalled 500 e.msg] }, err)
      | none => ({ iv with pc := .doDestroy }, err)
  | .doDestroy =>
      ({ iv with pc := .done, inst := B.Destroy iv.inst,
                 trace := iv.trace ++ [.destroyCalled] }, err)
  | .done => (iv, err)

/-- Run one step of the chosen thread on the shared state. -/
def stepRace {σ : Type} (B : ControllerBehavior σ) (s : RaceState σ) :
    Tid → RaceState σ
  | .a => let p := stepInv B s.err s.a; { s with a := p.1, err := p.2 }
  | .b => let p := stepInv B s.err s.b; { s with b := p.1, err := p.2 }

/-- Run a schedule (a list of thread choices) from a state. -/
def runRace {σ : Type} (B : ControllerBehavior σ) (s : RaceState σ) :
    List Tid → RaceState σ
  | [] => s
  | t :: ts => runRace B (stepRace B s t) ts

/-- A freshly begun invocation: `reflect.New` has produced the zero-valued
instance and the thread sits before line 111. -/
def startInv {σ : Type} (B : ControllerBehavior σ) (rw : ResponseWriter)
    (r : Request) : Invocation σ :=
  ⟨.doInit, B.zeroVal, rw, r, none, [.newInstance]⟩

/-- Two invocations of the same handler about to run: the captured `err`
is still `nil` from the successful registration. -/
def startRace {σ : Type} (B : ControllerBehavior σ)
    (rwa : ResponseWriter) (ra : Request)
    (rwb : ResponseWriter) (rb : Request) : RaceState σ :=
  ⟨none, startInv B rwa ra, startInv B rwb rb⟩

/-- Validation of the machine against the straight-line model: one
invocation run without interference (five consecutive steps of the same
thread, from a `nil` shared `err`) produces exactly the state and trace of
`serveHTTP`. -/
theorem runRace_isolated_eq_serveHTTP {σ : Type} (B : ControllerBehavior σ)
    (rw rwb : ResponseWriter) (r rb : Request) :
    ((runRace B (startRace B rw r rwb rb) [.a, .a, .a, .a, .a]).a.inst,
     (runRace B (startRace B rw r rwb rb) [.a, .a, .a, .a, .a]).a.trace) =
      serveHTTP B rw r := by
  simp only [runRace, startRace, startInv, serveHTTP, runLifecycle]
  rcases hinit : (B.Init B.zeroVal rw r).2 with _ | e
  · rcases hm : (B.method (B.Init B.zeroVal rw r).1).2 with _ | e2
    · simp [hinit, hm, stepInv, stepRace]
    · simp [hinit, hm, stepInv, stepRace]
  · simp [hinit, stepInv, stepRace]

/-- C4: the shape validator performs its checks in the fixed source order —
callable, one input, one return, return type implements `error`, pointer
form of the fully dereferenced parameter implements `Controller` — each
failing check yields its own distinct error message, and the first failing
check in that order determines the returned error (each error occurs
exactly when all earlier checks pass and that check fails). -/
theorem validator_first_failing_check_determines_error (t : GoType) :
    (controllerType t = .error "Action is not a function" ↔
      kindIsFunc t = false) ∧
    (controllerType t = .error "Wrong Number of Arguments in action" ↔
      (kindIsFunc t = true ∧ numIn t ≠ 1)) ∧
    (controllerType t = .error "Wrong Number of return values in action" ↔
      (kindIsFunc t = true ∧ numIn t = 1 ∧ numOut t ≠ 1)) ∧
    (controllerType t = .error "Action return type invalid" ↔
      (kindIsFunc t = true ∧ numIn t = 1 ∧ numOut t = 1 ∧
       Implements (outAt0 t) (interfaceOf (.ptr errorType)) = false)) ∧
    (controllerType t =
        .error "Controller does not implement ctrl.Controller interface" ↔
      (kindIsFunc t = true ∧ numIn t = 1 ∧ numOut t = 1 ∧
       Implements (outAt0 t) (interfaceOf (.ptr errorType)) = true ∧
       Implements (.ptr (stripAllPtr (inAt0 t)))
         (interfaceOf (.ptr ControllerIface)) = false)) ∧
    (controllerType t = .ok (stripAllPtr (inAt0 t)) ↔
      (kindIsFunc t = true ∧ numIn t = 1 ∧ numOut t = 1 ∧
       Implements (outAt0 t) (interfaceOf (.ptr errorType)) = true ∧
       Implements (.ptr (stripAllPtr (inAt0 t)))
         (interfaceOf (.ptr ControllerIface)) = true)) ∧
    List.Pairwise (fun x y => x ≠ y)
      ["Action is not a function", "Wrong Number of Arguments in action",
       "Wrong Number of return values in action",
       "Action return type invalid",
       "Controller does not implement ctrl.Controller interface"] := by
  refine ⟨?_, ?_, ?_, ?_, ?_, ?_, by decide⟩ <;>
  · unfold controllerType
    by_cases hf : kindIsFunc t <;> by_cases h1 : numIn t = 1 <;>
      by_cases h2 : numOut t = 1 <;>
      by_cases h3 : Implements (outAt0 t) (interfaceOf (.ptr errorType)) <;>
      by_cases h4 : Implements (.ptr (stripAllPtr (inAt0 t)))
        (interfaceOf (.ptr ControllerIface)) <;>
      simp_all

/-- C5 counterexample: the claim says a method reference returning nothing
at all fails with the distinct return-type-invalid error; on the code,
`(*TestController).BadAction` (no return value) fails the `NumOut() != 1`
check first and gets the return-count arity error, which is a different
message. -/
theorem bad_action_fails_with_return_count_error :
    controllerType BadActionRef =
      .error "Wrong Number of return values in action" ∧
    controllerType BadActionRef ≠ .error "Action return type invalid" := by
  refine ⟨rfl, fun h => ?_⟩
  have h2 : "Wrong Number of return values in action" =
      "Action return type invalid" := Except.error.inj h
  exact absurd h2 (by decide)

/-- C5 amended: a method reference with exactly one return value whose type
does not implement `error` fails with the InvalidReturnType error
("Action return type invalid"); a reference returning nothing at all
instead fails the return-count check and gets the arity error, as
`BadAction` and `BadAction2` from the test file show. -/
theorem nonerror_return_type_fails_invalid_return (t : GoType)
    (hf : kindIsFunc t = true) (h1 : numIn t = 1) (h2 : numOut t = 1)
    (hr : Implements (outAt0 t) (interfaceOf (.ptr errorType)) = false) :
    controllerType t = .error "Action return type invalid" ∧
    controllerType BadAction2Ref = .error "Action return type invalid" ∧
    controllerType BadActionRef =
      .error "Wrong Number of return values in action" := by
  refine ⟨?_, rfl, rfl⟩
  unfold controllerType
  simp [hf, h1, h2, hr]

/-- Witness for the amended C5 theorem at `(*TestController).BadAction2`. -/
theorem nonerror_return_type_fails_invalid_return_witness :
    controllerType BadAction2Ref = .error "Action return type invalid" :=
  (nonerror_return_type_fails_invalid_return BadAction2Ref rfl rfl rfl
    rfl).1

/-- The handler body modelled on a `BoundHandler` value: invocation runs
the lifecycle on a fresh zero-valued instance of the captured concrete
type and never re-inspects the captured method-reference type. -/
def BoundHandler.serve {σ : Type} (_ : BoundHandler)
    (B : ControllerBehavior σ) (rw : ResponseWriter) (r : Request) :
    σ × List Event :=
  runLifecycle B B.zeroVal rw r

/-- C7: `Action` panics at registration time with the validator's error on
every malformed method reference, returns a handler capturing the
reference and the validated concrete type on every well-formed one, and
the handler's per-invocation behaviour is the plain lifecycle — it is the
same for every handler value over a given controller behaviour, so no
shape validation happens per request. -/
theorem action_panics_at_registration_only (t : GoType) :
    (∀ e, controllerType t = .error e → Action t = .error e) ∧
    (∀ c, controllerType t = .ok c → Action t = .ok ⟨t, c⟩) ∧
    (∀ (σ : Type) (h h2 : BoundHandler) (B : ControllerBehavior σ)
       (rw : ResponseWriter) (r : Request),
      h.serve B rw r = serveHTTP B rw r ∧ h.serve B rw r = h2.serve B rw r) := by
  refine ⟨fun e he => ?_, fun c hc => ?_, fun σ h h2 B rw r => ⟨rfl, rfl⟩⟩
  · unfold Action
    rw [he]
  · unfold Action
    rw [hc]

/-- Witness for C7: the valid `(*TestController).Index` registers as a
handler, and the non-callable string value panics with the NotCallable
message. -/
theorem action_panics_at_registration_only_witness :
    Action IndexRef = .ok ⟨IndexRef, TestControllerType⟩ ∧
    Action stringType = .error "Action is not a function" :=
  ⟨(action_panics_at_registration_only IndexRef).2.1 TestControllerType rfl,
   (action_panics_at_registration_only stringType).1
     "Action is not a function" rfl⟩

/-- C8 counterexample: for `func(**TestController) error` the one-step
dereference reading of the spec rejects (the pointer form of
`*TestController` — a pointer-to-pointer — has no methods), but the code's
loop strips both levels and accepts; the accepted reference is then not
callable by the per-request instantiation `*TestController`, so
`val.Call` would panic. -/
theorem double_pointer_accepted_but_not_callable :
    controllerType DoublePtrRef = .ok TestControllerType ∧
    Implements (.ptr (stripOnePtr (inAt0 DoublePtrRef)))
      (interfaceOf (.ptr ControllerIface)) = false ∧
    ¬ callCompatible ⟨DoublePtrRef, TestControllerType⟩ := by
  refine ⟨rfl, rfl, fun h => ?_⟩
  simp [callCompatible, DoublePtrRef, inAt0, TestControllerType] at h

/-- C8 amended: the validator accepts a method reference exactly when its
single input parameter, after stripping all levels of indirection, is a
type whose pointer form implements the full Controller interface; an
accepted reference's per-request instantiation is callable by the
registered method exactly when the parameter is a single pointer to the
validated concrete type (which a multi-level pointer parameter is not). -/
theorem validator_strips_all_pointer_levels (p ret : GoType)
    (hret : Implements ret (interfaceOf (.ptr errorType)) = true) :
    (controllerType (.func [p] [ret]) = .ok (stripAllPtr p) ↔
      Implements (.ptr (stripAllPtr p))
        (interfaceOf (.ptr ControllerIface)) = true) ∧
    (∀ c, controllerType (.func [p] [ret]) = .ok c →
      (callCompatible ⟨.func [p] [ret], c⟩ ↔ p = .ptr c)) := by
  constructor
  · by_cases h : Implements (.ptr (stripAllPtr p))
        (interfaceOf (.ptr ControllerIface)) = true <;>
      simp [controllerType, kindIsFunc, numIn, numOut, inAt0, outAt0, hret, h]
  · intro c hc
    unfold callCompatible
    show inAt0 (.func [p] [ret]) = .ptr c ↔ p = .ptr c
    simp [inAt0]

/-- Witness for the amended C8 theorem at the valid single-pointer
reference `(*TestController).Index`. -/
theorem validator_strips_all_pointer_levels_witness :
    controllerType (.func [.ptr TestControllerType] [errorType]) =
      .ok (stripAllPtr (.ptr TestControllerType)) :=
  (validator_strips_all_pointer_levels (.ptr TestControllerType) errorType
    rfl).1.mpr rfl

/-- A concrete controller behaviour whose `Init` always fails with the
error "init failed" (the controller of Scenario 2 in the spec). -/
def initFailB : ControllerBehavior Unit where
  zeroVal := ()
  Init := fun s _ _ => (s, some ⟨"init failed"⟩)
  Destroy := fun s => s
  Error := fun s _ _ => s
  method := fun s => (s, none)

/-- Supporting lemma (not a per-claim result): in an UNINTERFERED
invocation, a non-nil `Init` result yields allocation, the failed `Init`,
one `Error` call with status 500 and the error's description, the deferred
`Destroy`, and no method invocation. This is the behaviour the shared-err
bug breaks under interleaving (see the claim theorems over the race
machine below). -/
theorem isolated_init_failure_reports_500_and_skips_method {σ : Type}
    (B : ControllerBehavior σ) (rw : ResponseWriter) (r : Request)
    (e : GoError) (h : (B.Init B.zeroVal rw r).2 = some e) :
    (serveHTTP B rw r).2 =
      [.newInstance, .initCalled (some e), .errorCalled 500 e.msg,
       .destroyCalled] ∧
    ∀ res, Event.methodCalled res ∉ (serveHTTP B rw r).2 := by
  constructor
  · simp [serveHTTP, runLifecycle, h]
  · intro res
    simp [serveHTTP, runLifecycle, h]

/-- C2: every invocation of the handler calls `Destroy` exactly once, and
as the last call, on each of the three exit paths (failed `Init`, failed
method, success). -/
theorem destroy_called_exactly_once {σ : Type} (B : ControllerBehavior σ)
    (rw : ResponseWriter) (r : Request) :
    ((serveHTTP B rw r).2.filter Event.isDestroyCall).length = 1 ∧
    (serveHTTP B rw r).2.getLast? = some .destroyCalled := by
  unfold serveHTTP runLifecycle
  rcases hinit : (B.Init B.zeroVal rw r).2 with _ | e
  · rcases hm : (B.method (B.Init B.zeroVal rw r).1).2 with _ | e2 <;>
      simp [Event.isDestroyCall, List.filter, hinit, hm]
  · simp [Event.isDestroyCall, List.filter, hinit]

/-- Supporting lemma (not a per-claim result): in an UNINTERFERED
invocation, `Error` is called at most once; any `Error` call carries
status 500 and the description of the error that `Init` or the bound
method returned, and when both succeed `Error` is never called. Under
interleaving the shared-err bug breaks the only-on-own-failure clause
(see the claim theorems over the race machine below). -/
theorem isolated_error_reported_at_most_once_only_on_failure {σ : Type}
    (B : ControllerBehavior σ) (rw : ResponseWriter) (r : Request) :
    ((serveHTTP B rw r).2.filter Event.isErrorCall).length ≤ 1 ∧
    (∀ code msg, Event.errorCalled code msg ∈ (serveHTTP B rw r).2 →
      code = 500 ∧
      ((B.Init B.zeroVal rw r).2 = some ⟨msg⟩ ∨
       ((B.Init B.zeroVal rw r).2 = none ∧
        (B.method (B.Init B.zeroVal rw r).1).2 = some ⟨msg⟩))) ∧
    ((B.Init B.zeroVal rw r).2 = none →
      (B.method (B.Init B.zeroVal rw r).1).2 = none →
      ∀ code msg, Event.errorCalled code msg ∉ (serveHTTP B rw r).2) := by
  unfold serveHTTP runLifecycle
  rcases hinit : (B.Init B.zeroVal rw r).2 with _ | e
  · rcases hm : (B.method (B.Init B.zeroVal rw r).1).2 with _ | e2 <;>
      simp [Event.isErrorCall, List.filter, hinit, hm]
  · simp [Event.isErrorCall, List.filter, hinit]

/-- The lifecycle behaviour of a controller that uses `Base` unmodified:
zero value has nil fields, `Init` is `BaseInit`, `Destroy` does nothing
(lines 74-75), `Error` writes to the response sink and leaves the struct
unchanged (lines 78-80), and the bound action succeeds. -/
def baseLifeB : ControllerBehavior Base where
  zeroVal := ⟨none, none⟩
  Init := BaseInit
  Destroy := fun s => s
  Error := fun s _ _ => s
  method := fun s => (s, none)

/-- C10: `Base.Init` stores the request and the response writer in the
struct's fields and returns nil; consequently, for any controller
behaviour whose `Init` never returns an error — in particular one using
`Base.Init` unmodified — every invocation reaches the bound method, so
the dispatcher's initialization-failure branch is unreachable. -/
theorem base_init_sets_fields_and_returns_nil {σ : Type} (b : Base)
    (rw : ResponseWriter) (r : Request) (B : ControllerBehavior σ)
    (hB : ∀ s rw2 r2, (B.Init s rw2 r2).2 = none) :
    (BaseInit b rw r).1.Request = some r ∧
    (BaseInit b rw r).1.ResponseWriter = some rw ∧
    (BaseInit b rw r).2 = none ∧
    (∃ res, Event.methodCalled res ∈ (serveHTTP B rw r).2) := by
  refine ⟨rfl, rfl, rfl, ?_⟩
  unfold serveHTTP runLifecycle
  have h := hB B.zeroVal rw r
  rcases hm : (B.method (B.Init B.zeroVal rw r).1).2 with _ | e2
  · exact ⟨none, by simp [h, hm]⟩
  · exact ⟨some e2, by simp [h, hm]⟩

/-- Witness for C10: a controller built on the unmodified `Base`. -/
theorem base_init_sets_fields_and_returns_nil_witness :
    (BaseInit ⟨none, none⟩ ⟨2⟩ ⟨3⟩).1.Request = some ⟨3⟩ ∧
    (BaseInit ⟨none, none⟩ ⟨2⟩ ⟨3⟩).1.ResponseWriter = some ⟨2⟩ ∧
    (BaseInit ⟨none, none⟩ ⟨2⟩ ⟨3⟩).2 = none ∧
    (∃ res, Event.methodCalled res ∈ (serveHTTP baseLifeB ⟨2⟩ ⟨3⟩).2) :=
  base_init_sets_fields_and_returns_nil ⟨none, none⟩ ⟨2⟩ ⟨3⟩ baseLifeB
    (fun _ _ _ => rfl)

/-- C6: every invocation allocates exactly one instance, as its first
step, and runs the lifecycle on the fresh zero value of the registered
type; in the two-invocation machine, a step of one invocation never
changes the other invocation's thread (its instance included), and a
step's effect on an invocation's own thread and on the shared cell
depends only on that thread and the shared cell — never on the other
invocation's instance. -/
theorem fresh_zero_instance_per_invocation {σ : Type}
    (B : ControllerBehavior σ) (rw : ResponseWriter) (r : Request)
    (s t : RaceState σ) :
    ((serveHTTP B rw r).2.filter Event.isAlloc).length = 1 ∧
    (serveHTTP B rw r).2.head? = some .newInstance ∧
    serveHTTP B rw r = runLifecycle B B.zeroVal rw r ∧
    (stepRace B s .a).b = s.b ∧
    (stepRace B s .b).a = s.a ∧
    (s.a = t.a → s.err = t.err →
      (stepRace B s .a).a = (stepRace B t .a).a ∧
      (stepRace B s .a).err = (stepRace B t .a).err) := by
  refine ⟨?_, ?_, rfl, rfl, rfl, fun ha herr => ?_⟩
  · unfold serveHTTP runLifecycle
    rcases hinit : (B.Init B.zeroVal rw r).2 with _ | e
    · rcases hm : (B.method (B.Init B.zeroVal rw r).1).2 with _ | e2 <;>
        simp [Event.isAlloc, List.filter, hinit, hm]
    · simp [Event.isAlloc, List.filter, hinit]
  · unfold serveHTTP runLifecycle
    rcases hinit : (B.Init B.zeroVal rw r).2 with _ | e
    · rcases hm : (B.method (B.Init B.zeroVal rw r).1).2 with _ | e2 <;>
        simp [hinit, hm]
    · simp [hinit]
  · constructor
    · show (stepInv B s.err s.a).1 = (stepInv B t.err t.a).1
      rw [ha, herr]
    · show (stepInv B s.err s.a).2 = (stepInv B t.err t.a).2
      rw [ha, herr]

/-- Witness for C6 at a concrete behaviour and pair of race states. -/
theorem fresh_zero_instance_per_invocation_witness :
    (stepRace initFailB (startRace initFailB ⟨0⟩ ⟨0⟩ ⟨1⟩ ⟨1⟩) .a).a =
      (stepRace initFailB (startRace initFailB ⟨0⟩ ⟨0⟩ ⟨1⟩ ⟨1⟩) .a).a ∧
    (stepRace initFailB (startRace initFailB ⟨0⟩ ⟨0⟩ ⟨1⟩ ⟨1⟩) .a).err =
      (stepRace initFailB (startRace initFailB ⟨0⟩ ⟨0⟩ ⟨1⟩ ⟨1⟩) .a).err :=
  (fresh_zero_instance_per_invocation initFailB ⟨0⟩ ⟨0⟩
    (startRace initFailB ⟨0⟩ ⟨0⟩ ⟨1⟩ ⟨1⟩)
    (startRace initFailB ⟨0⟩ ⟨0⟩ ⟨1⟩ ⟨1⟩)).2.2.2.2.2 rfl rfl

/-- A handler behaviour whose `Init` fails exactly for the request with
id 1 and succeeds otherwise, with an always-succeeding bound method. -/
def raceB : ControllerBehavior Unit where
  zeroVal := ()
  Init := fun s _ r => (s, if r.id = 1 then some ⟨"init failed"⟩ else none)
  Destroy := fun s => s
  Error := fun s _ _ => s
  method := fun s => (s, none)

/-- C9 evidence: the closure is not stateless — line 111 assigns `Init`'s
result into the `err` variable captured from `Action`'s scope, shared by
all invocations of the handler. Run two invocations of one handler:
invocation `b` (request 1, whose `Init` fails) in isolation reports the
error and skips the method; but under the interleaving where `a`'s
`Init` (request 0, succeeding) runs between `b`'s `Init` and `b`'s
nil-check, `b` reads `a`'s nil, invokes the bound method despite its own
failed `Init`, and never reports the error — the outcome of `b`'s
invocation depends on state written by `a`. -/
theorem captured_err_is_shared_across_invocations :
    (raceB.Init () ⟨1⟩ ⟨1⟩).2 = some ⟨"init failed"⟩ ∧
    (runRace raceB (startRace raceB ⟨0⟩ ⟨0⟩ ⟨1⟩ ⟨1⟩)
        [.b, .b, .b, .b, .b]).b.trace =
      [.newInstance, .initCalled (some ⟨"init failed"⟩),
       .errorCalled 500 "init failed", .destroyCalled] ∧
    (runRace raceB (startRace raceB ⟨0⟩ ⟨0⟩ ⟨1⟩ ⟨1⟩)
        [.b, .a, .b, .b, .b, .b]).b.trace =
      [.newInstance, .initCalled (some ⟨"init failed"⟩),
       .methodCalled none, .destroyCalled] := by
  refine ⟨rfl, ?_, ?_⟩ <;> rfl

/-- C1 evidence (code bug): the claim — every invocation whose `Init`
returns a non-nil error calls `Error(500, description)` and skips the
bound method — is what lines 113-116 intend, but line 113 reads the
captured `err` shared between invocations. At the failing input
(invocation `b`, request 1, `Init` fails; invocation `a`'s successful
`Init` interleaves between `b`'s `Init` and `b`'s nil-check), `b`'s own
`Init` returned an error, yet `b`'s trace has no `Error` call at all and
does invoke the bound method. -/
theorem failed_init_invocation_can_run_method_unreported :
    (raceB.Init () ⟨1⟩ ⟨1⟩).2 = some ⟨"init failed"⟩ ∧
    ((runRace raceB (startRace raceB ⟨0⟩ ⟨0⟩ ⟨1⟩ ⟨1⟩)
        [.b, .a, .b, .b, .b, .b]).b.trace.filter Event.isErrorCall) = [] ∧
    ((runRace raceB (startRace raceB ⟨0⟩ ⟨0⟩ ⟨1⟩ ⟨1⟩)
        [.b, .a, .b, .b, .b, .b]).b.trace.filter Event.isMethodCall) =
      [.methodCalled none] := by
  refine ⟨rfl, ?_, ?_⟩ <;> rfl

/-- C3 evidence (code bug): the claim — `Error` fires only when the
invocation's own `Init` fails or its bound method returns a non-nil
error, and never in the success case — is broken by the same shared
captured `err`. At the failing input (invocation `a`, request 0, whose
`Init` succeeds and whose method always succeeds; invocation `b`'s
failing `Init` interleaves between `a`'s `Init` and `a`'s nil-check),
`a` calls `Error(500, "init failed")` with `b`'s error description and
its own bound method never runs. -/
theorem succeeded_init_invocation_can_report_foreign_error :
    (raceB.Init () ⟨0⟩ ⟨0⟩).2 = none ∧
    (raceB.method ()).2 = none ∧
    (runRace raceB (startRace raceB ⟨0⟩ ⟨0⟩ ⟨1⟩ ⟨1⟩)
        [.a, .b, .a, .a]).a.trace =
      [.newInstance, .initCalled none, .errorCalled 500 "init failed",
       .destroyCalled] := by
  refine ⟨rfl, rfl, ?_⟩
  rfl

end Controller
